import Mathlib

/-!
Verification of the LNA-permissions demo application.

The development shallowly embeds the three units the specification covers:
the browser-capability classifier (src/lib/browser-detection.ts), the
permission status reader (src/lib/lna-permissions.ts, queryLNAPermission),
and the single-request fetch lifecycle (makeLocalNetworkRequest together
with the useLNAFetch hook). Host-provided capabilities (secure context,
the permission query, fetch) are passed in explicitly as data.
-/

/-- Boolean test that `p` is a leading segment of `l` (character lists). -/
def hasPre : List Char → List Char → Bool
  | [], _ => true
  | _ :: _, [] => false
  | a :: as, b :: bs => a == b && hasPre as bs

/-- Boolean test that `pat` occurs contiguously inside `l`. -/
def hasSub (pat : List Char) : List Char → Bool
  | [] => hasPre pat []
  | c :: cs => hasPre pat (c :: cs) || hasSub pat cs

/-- Embedding of JavaScript `String.prototype.includes` (case-sensitive
substring containment). -/
def strContains (s pat : String) : Bool :=
  hasSub pat.data s.data

/-- A JavaScript number that is either an integer or NaN (`none`). The only
numbers the classifier manipulates come from `parseInt`, which produces
exactly these. -/
abbrev JSNum := Option Int

/-- Longest leading run of decimal digits. -/
def takeDigits : List Char → List Char
  | [] => []
  | c :: cs => if c.isDigit then c :: takeDigits cs else []

/-- Value of a digit string, most significant first. -/
def digitsToNat (ds : List Char) : Nat :=
  ds.foldl (fun a c => 10 * a + (c.toNat - 48)) 0

/-- Embedding of JavaScript `parseInt(s, 10)`: skip leading whitespace, read
an optional sign, then the longest run of decimal digits; NaN (`none`) when
no digit is found. -/
def parseIntJS (s : String) : JSNum :=
  let cs := s.data.dropWhile Char.isWhitespace
  let (neg, rest) :=
    match cs with
    | '-' :: t => (true, t)
    | '+' :: t => (false, t)
    | t => (false, t)
  let ds := takeDigits rest
  if ds.isEmpty then none
  else some (if neg then -(digitsToNat ds : Int) else (digitsToNat ds : Int))

/-- JavaScript `>=` on a possibly-NaN number: any comparison with NaN is
false. -/
def geNum (v : JSNum) (bound : Int) : Bool :=
  match v with
  | none => false
  | some k => decide (bound ≤ k)

/-- JavaScript number-to-string coercion as used in the template literals of
the classifier: NaN prints as "NaN". -/
def numToString (v : JSNum) : String :=
  match v with
  | none => "NaN"
  | some k => toString k

/-- Result record of `checkLikelySupport`. -/
structure SupportResult where
  isLikelySupported : Bool
  supportReason : Option String
  deriving Repr, DecidableEq

/-- Name matches the Chrome arm of the classifier. -/
def chromeMatch (browserName : String) : Bool :=
  strContains browserName "Chrome" || strContains browserName "Chromium"

/-- Name matches the Edge arm of the classifier. -/
def edgeMatch (browserName : String) : Bool :=
  strContains browserName "Edge" || strContains browserName "Edg"

/-- Embedding of `checkLikelySupport` from src/lib/browser-detection.ts: the
arms are tried in source order (Chrome/Chromium, then Edge/Edg, then
Firefox, then Safari, then a generic fallback). -/
def checkLikelySupport (browserName browserVersion : String) : SupportResult :=
  let versionNumber := parseIntJS browserVersion
  if chromeMatch browserName then
    if geNum versionNumber 142 then
      ⟨true, some ("Chrome " ++ numToString versionNumber ++ "+ supports LNA")⟩
    else
      ⟨false, some ("Chrome " ++ numToString versionNumber ++
        " detected. LNA requires Chrome 142+")⟩
  else if edgeMatch browserName then
    if geNum versionNumber 143 then
      ⟨true, some ("Edge " ++ numToString versionNumber ++ "+ supports LNA")⟩
    else
      ⟨false, some ("Edge " ++ numToString versionNumber ++
        " detected. LNA requires Edge 143+")⟩
  else if strContains browserName "Firefox" then
    ⟨false, some "Firefox support is in prototyping stage"⟩
  else if strContains browserName "Safari" then
    ⟨false, some "Safari does not support LNA"⟩
  else
    ⟨false, some (browserName ++ " support unknown. Try Chrome 142+ or Edge 143+")⟩

/-- Browser identity as reported by the user-agent parser together with the
classifier's verdict (src/lib/browser-detection.ts, getBrowserInfo). -/
structure BrowserInfo where
  name : String
  version : String
  isLikelySupported : Bool
  supportReason : Option String
  deriving Repr, DecidableEq

/-- The three permission states the host's permission query can report. -/
inductive PermState where
  | granted
  | prompt
  | denied
  deriving Repr, DecidableEq

/-- Host environment as seen by `queryLNAPermission`: secure-context flag,
the user-agent parser's output (`none` when a field is undetected),
presence of `navigator.permissions`/`navigator.permissions.query`, and the
behaviour of the permission-query call when invoked (resolving with a state
or rejecting with an error value that is only logged). -/
structure Host where
  isSecureContext : Bool
  uaName : Option String
  uaVersion : Option String
  permissionsAvailable : Bool
  queryResult : Except String PermState

/-- Embedding of `getBrowserInfo`: undetected name and version fall back to
"Unknown" and "0". -/
def getBrowserInfo (h : Host) : BrowserInfo :=
  let browserName := h.uaName.getD "Unknown"
  let browserVersion := h.uaVersion.getD "0"
  let r := checkLikelySupport browserName browserVersion
  ⟨browserName, browserVersion, r.isLikelySupported, r.supportReason⟩

/-- Support summary carried inside a permission snapshot. -/
structure BrowserSupport where
  isSupported : Bool
  reason : Option String
  browserInfo : BrowserInfo
  deriving Repr, DecidableEq

/-- A permission snapshot (the LNAPermissionStatus record). -/
structure LNAPermissionStatus where
  state : PermState
  isSecureContext : Bool
  browserSupport : BrowserSupport
  deriving Repr, DecidableEq

/-- Embedding of `queryLNAPermission` from src/lib/lna-permissions.ts. The
source mutates `browserSupport` in place; the embedding mirrors each
overwrite. Totality of this function is the source's guarantee that the
promise never rejects: every branch returns a snapshot. -/
def queryLNAPermission (h : Host) : LNAPermissionStatus :=
  let browserInfo := getBrowserInfo h
  let isSecureContext := h.isSecureContext
  let baseReason : Option String :=
    if isSecureContext then none else some "HTTPS required (not in secure context)"
  if !h.permissionsAvailable then
    { state := .denied, isSecureContext := isSecureContext,
      browserSupport :=
        ⟨false, some "Permissions API not available", browserInfo⟩ }
  else
    match h.queryResult with
    | .ok s =>
        { state := s, isSecureContext := isSecureContext,
          browserSupport := ⟨true, baseReason, browserInfo⟩ }
    | .error _ =>
        { state := .denied, isSecureContext := isSecureContext,
          browserSupport :=
            ⟨false, some "local-network-access permission not recognized by browser",
              browserInfo⟩ }

/-- The six-valued address-space hint of the richer request form. -/
inductive TargetAddressSpace where
  | loopback
  | «local»
  | «private»
  | public
  | unknown
  | none
  deriving Repr, DecidableEq

/-- A value thrown by JavaScript code: an Error object carrying a message,
or any non-Error value. -/
inductive Thrown where
  | errObj (message : String)
  | nonErr
  deriving Repr, DecidableEq

/-- Response body payload (untyped: decoded structured data or raw text are
both represented as the text they came from). -/
abbrev Payload := String

/-- An HTTP response as the code observes it: status, status text, headers
in iteration order, the outcome of `response.json()` (which can itself
throw on malformed JSON), and the outcome of `response.text()`. -/
structure HttpResponse where
  status : Nat
  statusText : String
  headers : List (String × String)
  jsonBody : Except Thrown Payload
  textBody : Payload

/-- What one `fetch` call does: resolve with a response or throw. -/
inductive FetchOutcome where
  | response (r : HttpResponse)
  | thrown (e : Thrown)

/-- The host's network behaviour: what fetching a URL with a given
address-space hint does. -/
abbrev FetchEnv := String → TargetAddressSpace → FetchOutcome

/-- `response.ok`: status in the range 200–299. -/
def respOk (status : Nat) : Bool :=
  decide (200 ≤ status) && decide (status < 300)

/-- ASCII lowercasing of a string (JavaScript `toLowerCase` restricted to
the ASCII header names the code applies it to). -/
def lowerStr (s : String) : String :=
  ⟨s.data.map Char.toLower⟩

/-- Embedding of `Headers.get` (case-insensitive name lookup). -/
def headerGet (headers : List (String × String)) (name : String) : Option String :=
  (headers.find? (fun kv => lowerStr kv.1 == lowerStr name)).map Prod.snd

/-- The header filter of `makeLocalNetworkRequest`: keep a header when its
lowercased name contains "private-network" or "access-control". -/
def keepHeader (kv : String × String) : Bool :=
  strContains (lowerStr kv.1) "private-network" ||
    strContains (lowerStr kv.1) "access-control"

/-- Successful result of `makeLocalNetworkRequest`. -/
structure ReqSuccess where
  data : Payload
  headers : List (String × String)
  deriving Repr, DecidableEq

/-- JavaScript default-argument semantics for `targetAddressSpace = 'local'`:
an absent (undefined) argument becomes 'local'. -/
def resolveSpace : Option TargetAddressSpace → TargetAddressSpace
  | Option.none => .«local»
  | Option.some s => s

/-- Embedding of `makeLocalNetworkRequest` from src/lib/lna-permissions.ts:
throw on a non-2xx status with the formatted message, filter headers,
decode the body by content type. `Except.error` is the thrown path. -/
def makeLocalNetworkRequest (url : String)
    (targetAddressSpaceArg : Option TargetAddressSpace) (env : FetchEnv) :
    Except Thrown ReqSuccess :=
  let targetAddressSpace := resolveSpace targetAddressSpaceArg
  match env url targetAddressSpace with
  | .thrown e => .error e
  | .response r =>
    if !respOk r.status then
      .error (.errObj ("HTTP " ++ toString r.status ++ ": " ++ r.statusText))
    else
      let headers := r.headers.filter keepHeader
      let contentType := headerGet r.headers "content-type"
      match contentType with
      | Option.some ct =>
          if strContains ct "application/json" then
            match r.jsonBody with
            | .ok d => .ok ⟨d, headers⟩
            | .error e => .error e
          else .ok ⟨r.textBody, headers⟩
      | Option.none => .ok ⟨r.textBody, headers⟩

/-- The fetch lifecycle's displayed state (FetchResponse in the hook). -/
inductive FetchResponse where
  | idle
  | loading
  | success (data : Payload) (headers : List (String × String))
  | error (message : String)
  deriving Repr, DecidableEq

/-- The completion handler of `sendRequest`: a resolved call becomes a
success state; a thrown value becomes an error state whose message is the
Error's message, or "Unknown error occurred" for a non-Error value. -/
def applyOutcome : Except Thrown ReqSuccess → FetchResponse
  | .ok s => .success s.data s.headers
  | .error (.errObj m) => .error m
  | .error .nonErr => .error "Unknown error occurred"

/-- Displayed state of `useLNAFetch` after `sendRequest`'s call completes
(the state set by the handler in src — success or error, never idle or
loading). -/
def sendRequest (url : String) (targetAddressSpaceArg : Option TargetAddressSpace)
    (env : FetchEnv) : FetchResponse :=
  applyOutcome (makeLocalNetworkRequest url targetAddressSpaceArg env)

/-- A configuration of the hook plus its event loop: the displayed state and
the outcomes of issued but not yet resolved calls, in issue order. -/
structure Config where
  displayed : FetchResponse
  pending : List (Except Thrown ReqSuccess)
  deriving Repr

/-- Events of the single-request lifecycle. `submit` runs the synchronous
prefix of `sendRequest` (set loading, issue the call); `resolve i` runs the
continuation of pending call `i` (set the outcome's state — the source has
no guard against stale calls); `clear` sets idle. -/
inductive Event where
  | submit (url : String) (spaceArg : Option TargetAddressSpace) (env : FetchEnv)
  | resolve (i : Nat)
  | clear

/-- One event-loop step of the hook. -/
def stepEv (c : Config) : Event → Config
  | .submit url spaceArg env =>
      ⟨.loading, c.pending ++ [makeLocalNetworkRequest url spaceArg env]⟩
  | .resolve i =>
      match c.pending[i]? with
      | Option.some o => ⟨applyOutcome o, c.pending.eraseIdx i⟩
      | Option.none => c
  | .clear => ⟨.idle, c.pending⟩

/-- Run a sequence of events from a configuration. -/
def runEv (c : Config) : List Event → Config
  | [] => c
  | e :: es => runEv (stepEv c e) es

/-- Concrete host whose permission-query capability is absent. -/
def hostNoApi : Host :=
  ⟨true, Option.some "Chrome", Option.some "142.0.0", false, Except.ok .granted⟩

/-- Concrete host whose permission query rejects. -/
def hostRejecting : Host :=
  ⟨false, Option.none, Option.none, true, Except.error "NotSupportedError"⟩

/-- Concrete host whose permission query resolves with granted. -/
def hostGranting : Host :=
  ⟨true, Option.some "Chrome", Option.some "142.0.0", true, Except.ok .granted⟩

/-- Headers of the sample response, as the demo server sends them. -/
def sampleHeaders : List (String × String) :=
  [("Content-Type", "application/json"),
   ("Access-Control-Allow-Origin", "*"),
   ("Private-Network-Access-Name", "test-server")]

/-- A sample 200 response carrying a JSON body. -/
def respSample : HttpResponse :=
  ⟨200, "OK", sampleHeaders, Except.ok "{}", "{}"⟩

/-- A network environment that always answers with the sample response. -/
def envSample : FetchEnv := fun _ _ => .response respSample

/-- A network environment that always answers 404 Not Found. -/
def env404 : FetchEnv := fun _ _ => .response ⟨404, "Not Found", [], Except.ok "", ""⟩

/-- `≥ 143` implies `≥ 142` for a possibly-NaN version number. -/
theorem geNum_143_to_142 (v : JSNum) (h : geNum v 143 = true) : geNum v 142 = true := by
  cases v with
  | none => simp [geNum] at h
  | some k =>
    simp only [geNum, decide_eq_true_eq] at h ⊢
    omega

/-- C1: `checkLikelySupport` reports likely support exactly when the name
matches Chrome/Chromium with parsed major version at least 142 or matches
Edge/Edg with parsed major version at least 143, and on the Firefox and the
Safari branches the reason string is present and non-empty. -/
theorem checkLikelySupport_verdict_iff (name version : String) :
    ((checkLikelySupport name version).isLikelySupported = true ↔
      (chromeMatch name = true ∧ geNum (parseIntJS version) 142 = true) ∨
      (edgeMatch name = true ∧ geNum (parseIntJS version) 143 = true)) ∧
    (chromeMatch name = false → edgeMatch name = false →
      strContains name "Firefox" = true →
      ∃ r, (checkLikelySupport name version).supportReason = some r ∧ r ≠ "") ∧
    (chromeMatch name = false → edgeMatch name = false →
      strContains name "Firefox" = false → strContains name "Safari" = true →
      ∃ r, (checkLikelySupport name version).supportReason = some r ∧ r ≠ "") := by
  refine ⟨?_, ?_, ?_⟩
  · rcases Bool.eq_false_or_eq_true (chromeMatch name) with hc | hc
    · rcases Bool.eq_false_or_eq_true (geNum (parseIntJS version) 142) with hv | hv
      · simp [checkLikelySupport, hc, hv]
      · have hv143 : geNum (parseIntJS version) 143 = false := by
          rcases Bool.eq_false_or_eq_true (geNum (parseIntJS version) 143) with h | h
          · rw [geNum_143_to_142 _ h] at hv
            exact absurd hv (by simp)
          · exact h
        simp [checkLikelySupport, hc, hv, hv143]
    · rcases Bool.eq_false_or_eq_true (edgeMatch name) with he | he
      · rcases Bool.eq_false_or_eq_true (geNum (parseIntJS version) 143) with hv | hv <;>
          simp [checkLikelySupport, hc, he, hv]
      · rcases Bool.eq_false_or_eq_true (strContains name "Firefox") with hf | hf <;>
          rcases Bool.eq_false_or_eq_true (strContains name "Safari") with hs | hs <;>
          simp [checkLikelySupport, hc, he, hf, hs]
  · intro hc he hf
    simp [checkLikelySupport, hc, he, hf]
  · intro hc he hf hs
    simp [checkLikelySupport, hc, he, hf, hs]

/-- Witness for C1: concrete evaluations discharging each hypothesis of the
branch-specific conjuncts. -/
theorem checkLikelySupport_verdict_iff_witness :
    (∃ r, (checkLikelySupport "Firefox" "100").supportReason = some r ∧ r ≠ "") ∧
    (∃ r, (checkLikelySupport "Safari" "17").supportReason = some r ∧ r ≠ "") :=
  ⟨(checkLikelySupport_verdict_iff "Firefox" "100").2.1 (by decide) (by decide) (by decide),
   (checkLikelySupport_verdict_iff "Safari" "17").2.2 (by decide) (by decide) (by decide)
     (by decide)⟩

/-- C5 counterexample: the name "Edg Chromium" matches both the Edge and the
Chrome substrings, yet at version 142 the classifier reports likely support
with the Chrome branch's reason, because the Chrome/Chromium test runs
first — refuting the claim that the Edge rule (threshold 143, Edge reason)
wins such ties. -/
theorem edge_priority_counterexample :
    edgeMatch "Edg Chromium" = true ∧ chromeMatch "Edg Chromium" = true ∧
    (checkLikelySupport "Edg Chromium" "142").isLikelySupported = true ∧
    (checkLikelySupport "Edg Chromium" "142").supportReason =
      some "Chrome 142+ supports LNA" := by
  refine ⟨by decide, by decide, ?_, ?_⟩ <;> rfl

/-- C5 amended: on a name matching both the Edge/Edg and the Chrome/Chromium
substrings, the Chrome/Chromium check is applied first, so the verdict is
likely-supported exactly when the parsed version is at least 142 and the
reason is the Chrome branch's string. -/
theorem chrome_branch_takes_precedence (name version : String)
    (_he : edgeMatch name = true) (hc : chromeMatch name = true) :
    (checkLikelySupport name version).isLikelySupported =
      geNum (parseIntJS version) 142 ∧
    (checkLikelySupport name version).supportReason =
      some (if geNum (parseIntJS version) 142 then
              "Chrome " ++ numToString (parseIntJS version) ++ "+ supports LNA"
            else
              "Chrome " ++ numToString (parseIntJS version) ++
                " detected. LNA requires Chrome 142+") := by
  rcases Bool.eq_false_or_eq_true (geNum (parseIntJS version) 142) with hv | hv <;>
    simp [checkLikelySupport, hc, hv]

/-- Witness for the amended C5 at the concrete tie input. -/
theorem chrome_branch_takes_precedence_witness :
    (checkLikelySupport "Edg Chromium" "142").isLikelySupported =
      geNum (parseIntJS "142") 142 ∧
    (checkLikelySupport "Edg Chromium" "142").supportReason =
      some (if geNum (parseIntJS "142") 142 then
              "Chrome " ++ numToString (parseIntJS "142") ++ "+ supports LNA"
            else
              "Chrome " ++ numToString (parseIntJS "142") ++
                " detected. LNA requires Chrome 142+") :=
  chrome_branch_takes_precedence "Edg Chromium" "142" (by decide) (by decide)

/-- C6 counterexample: on the non-numeric version string "abc" the classifier
embeds "NaN" in the reason, not "0" — the verdict is not the one computed
with major version 0, refuting the claim that non-numeric input is treated
as the integer 0. -/
theorem nonNumeric_version_counterexample :
    parseIntJS "abc" = none ∧
    (checkLikelySupport "Chrome" "abc").supportReason =
      some "Chrome NaN detected. LNA requires Chrome 142+" ∧
    (checkLikelySupport "Chrome" "abc").supportReason ≠
      (checkLikelySupport "Chrome" "0").supportReason := by
  refine ⟨by decide, by rfl, by decide⟩

/-- C6 amended: a non-numeric version string parses to NaN, the classifier
never fails and reports not-likely-supported (every threshold comparison
with NaN is false, so the boolean verdict agrees with major version 0), and
on the Chrome and Edge branches the reason embeds "NaN". -/
theorem nonNumeric_version_yields_nan (name version : String)
    (h : parseIntJS version = none) :
    (checkLikelySupport name version).isLikelySupported = false ∧
    (chromeMatch name = true →
      (checkLikelySupport name version).supportReason =
        some "Chrome NaN detected. LNA requires Chrome 142+") ∧
    (chromeMatch name = false → edgeMatch name = true →
      (checkLikelySupport name version).supportReason =
        some "Edge NaN detected. LNA requires Edge 143+") := by
  refine ⟨?_, ?_, ?_⟩
  · rcases Bool.eq_false_or_eq_true (chromeMatch name) with hc | hc <;>
      rcases Bool.eq_false_or_eq_true (edgeMatch name) with he | he <;>
      rcases Bool.eq_false_or_eq_true (strContains name "Firefox") with hf | hf <;>
      rcases Bool.eq_false_or_eq_true (strContains name "Safari") with hs | hs <;>
      simp [checkLikelySupport, h, geNum, hc, he, hf, hs]
  · intro hc
    simp [checkLikelySupport, h, geNum, numToString, hc]
  · intro hc he
    simp [checkLikelySupport, h, geNum, numToString, hc, he]

/-- Witness for the amended C6 at the concrete input ("Chrome", "abc"). -/
theorem nonNumeric_version_yields_nan_witness :
    (checkLikelySupport "Chrome" "abc").isLikelySupported = false ∧
    (checkLikelySupport "Chrome" "abc").supportReason =
      some "Chrome NaN detected. LNA requires Chrome 142+" :=
  ⟨(nonNumeric_version_yields_nan "Chrome" "abc" (by decide)).1,
   (nonNumeric_version_yields_nan "Chrome" "abc" (by decide)).2.1 (by decide)⟩

/-- C2: `queryLNAPermission` is a total function (the promise never
rejects). When the permission-query capability is absent it returns state
denied with support not-supported and reason "Permissions API not
available", whatever the secure-context flag; when the query call rejects
it catches the error and returns state denied, not-supported, with reason
"local-network-access permission not recognized by browser", never
propagating the error. -/
theorem queryLNAPermission_failure_paths (h : Host) :
    (h.permissionsAvailable = false →
      (queryLNAPermission h).state = .denied ∧
      (queryLNAPermission h).browserSupport.isSupported = false ∧
      (queryLNAPermission h).browserSupport.reason =
        some "Permissions API not available") ∧
    (∀ e, h.permissionsAvailable = true → h.queryResult = .error e →
      (queryLNAPermission h).state = .denied ∧
      (queryLNAPermission h).browserSupport.isSupported = false ∧
      (queryLNAPermission h).browserSupport.reason =
        some "local-network-access permission not recognized by browser") := by
  constructor
  · intro hp
    simp [queryLNAPermission, hp]
  · intro e hp hq
    simp [queryLNAPermission, hp, hq]

/-- Witness for C2: the two failure paths evaluated at concrete hosts, one
without the capability, one whose query rejects. -/
theorem queryLNAPermission_failure_paths_witness :
    ((queryLNAPermission hostNoApi).state = .denied ∧
      (queryLNAPermission hostNoApi).browserSupport.isSupported = false ∧
      (queryLNAPermission hostNoApi).browserSupport.reason =
        some "Permissions API not available") ∧
    ((queryLNAPermission hostRejecting).state = .denied ∧
      (queryLNAPermission hostRejecting).browserSupport.isSupported = false ∧
      (queryLNAPermission hostRejecting).browserSupport.reason =
        some "local-network-access permission not recognized by browser") :=
  ⟨(queryLNAPermission_failure_paths hostNoApi).1 rfl,
   (queryLNAPermission_failure_paths hostRejecting).2 "NotSupportedError" rfl rfl⟩

/-- C7: when the permission query succeeds with state `s`,
`queryLNAPermission` returns `s`, the host's secure-context flag, support
supported, and a reason that is absent in a secure context and exactly
"HTTPS required (not in secure context)" otherwise. -/
theorem queryLNAPermission_success_path (h : Host) (s : PermState)
    (hp : h.permissionsAvailable = true) (hq : h.queryResult = .ok s) :
    (queryLNAPermission h).state = s ∧
    (queryLNAPermission h).isSecureContext = h.isSecureContext ∧
    (queryLNAPermission h).browserSupport.isSupported = true ∧
    (queryLNAPermission h).browserSupport.reason =
      (if h.isSecureContext then Option.none
       else Option.some "HTTPS required (not in secure context)") := by
  simp [queryLNAPermission, hp, hq]

/-- Witness for C7 at a concrete granting host. -/
theorem queryLNAPermission_success_path_witness :
    (queryLNAPermission hostGranting).state = .granted ∧
    (queryLNAPermission hostGranting).isSecureContext = hostGranting.isSecureContext ∧
    (queryLNAPermission hostGranting).browserSupport.isSupported = true ∧
    (queryLNAPermission hostGranting).browserSupport.reason =
      (if hostGranting.isSecureContext then Option.none
       else Option.some "HTTPS required (not in secure context)") :=
  queryLNAPermission_success_path hostGranting .granted rfl rfl

/-- C3: a completed response with a non-2xx status makes the lifecycle end
in the error state with message "HTTP <status>: <statusText>"; any thrown
value makes it end in the error state with the Error's message, or with
"Unknown error occurred" when the thrown value is not an Error. -/
theorem sendRequest_failure_messages (url : String)
    (spaceArg : Option TargetAddressSpace) (env : FetchEnv) :
    (∀ r, env url (resolveSpace spaceArg) = .response r → respOk r.status = false →
      sendRequest url spaceArg env =
        .error ("HTTP " ++ toString r.status ++ ": " ++ r.statusText)) ∧
    (∀ m, makeLocalNetworkRequest url spaceArg env = .error (.errObj m) →
      sendRequest url spaceArg env = .error m) ∧
    (makeLocalNetworkRequest url spaceArg env = .error .nonErr →
      sendRequest url spaceArg env = .error "Unknown error occurred") := by
  refine ⟨?_, ?_, ?_⟩
  · intro r hr hok
    simp [sendRequest, makeLocalNetworkRequest, hr, hok, applyOutcome]
  · intro m hm
    simp [sendRequest, hm, applyOutcome]
  · intro hm
    simp [sendRequest, hm, applyOutcome]

/-- Witness for C3: a 404 with status text "Not Found" yields exactly the
message "HTTP 404: Not Found". -/
theorem sendRequest_failure_messages_witness :
    sendRequest "http://192.168.1.100:8080" Option.none env404 =
      .error "HTTP 404: Not Found" := by
  have h := (sendRequest_failure_messages "http://192.168.1.100:8080"
      Option.none env404).1 ⟨404, "Not Found", [], Except.ok "", ""⟩ rfl (by decide)
  exact h

/-- C4: the lifecycle is a four-state machine: a submit event always sets
the displayed state to loading (Pending) and records the outbound call,
which can only complete later (a resolve with nothing pending changes
nothing); resolving a pending call sets exactly one of success or error;
clear sets idle from every state; and clear at idle leaves the whole
configuration unchanged. -/
theorem lifecycle_state_machine (c : Config) (url : String)
    (spaceArg : Option TargetAddressSpace) (env : FetchEnv) (i : Nat)
    (o : Except Thrown ReqSuccess) :
    (stepEv c (.submit url spaceArg env)).displayed = .loading ∧
    (stepEv c (.submit url spaceArg env)).pending =
      c.pending ++ [makeLocalNetworkRequest url spaceArg env] ∧
    (c.pending = [] → stepEv c (.resolve i) = c) ∧
    (c.pending[i]? = Option.some o →
      ((∃ d hs, (stepEv c (.resolve i)).displayed = .success d hs) ∧
          ¬ ∃ m, (stepEv c (.resolve i)).displayed = .error m) ∨
      ((∃ m, (stepEv c (.resolve i)).displayed = .error m) ∧
          ¬ ∃ d hs, (stepEv c (.resolve i)).displayed = .success d hs)) ∧
    (stepEv c .clear).displayed = .idle ∧
    (c.displayed = .idle → stepEv c .clear = c) := by
  refine ⟨rfl, rfl, ?_, ?_, rfl, ?_⟩
  · intro hp
    simp [stepEv, hp]
  · intro hp
    simp only [stepEv, hp]
    cases o with
    | ok s =>
        left
        exact ⟨⟨s.data, s.headers, rfl⟩, by rintro ⟨m, hm⟩; cases hm⟩
    | error e =>
        right
        cases e with
        | errObj m =>
            exact ⟨⟨m, rfl⟩, by rintro ⟨d, hs, hm⟩; cases hm⟩
        | nonErr =>
            exact ⟨⟨"Unknown error occurred", rfl⟩, by rintro ⟨d, hs, hm⟩; cases hm⟩
  · intro hd
    cases c with
    | mk d p => cases hd; rfl

/-- Witness for C4: the hypothesis-bearing conjuncts evaluated on concrete
configurations. -/
theorem lifecycle_state_machine_witness :
    (stepEv (⟨.idle, []⟩ : Config) (.resolve 0) = (⟨.idle, []⟩ : Config)) ∧
    (((∃ d hs, (stepEv (⟨.idle, [Except.ok ⟨"{}", []⟩]⟩ : Config)
          (.resolve 0)).displayed = .success d hs) ∧
        ¬ ∃ m, (stepEv (⟨.idle, [Except.ok ⟨"{}", []⟩]⟩ : Config)
          (.resolve 0)).displayed = .error m) ∨
      ((∃ m, (stepEv (⟨.idle, [Except.ok ⟨"{}", []⟩]⟩ : Config)
          (.resolve 0)).displayed = .error m) ∧
        ¬ ∃ d hs, (stepEv (⟨.idle, [Except.ok ⟨"{}", []⟩]⟩ : Config)
          (.resolve 0)).displayed = .success d hs)) ∧
    stepEv (⟨.idle, []⟩ : Config) .clear = (⟨.idle, []⟩ : Config) :=
  ⟨(lifecycle_state_machine ⟨.idle, []⟩ "u" Option.none envSample 0
      (Except.ok ⟨"{}", []⟩)).2.2.1 rfl,
   (lifecycle_state_machine ⟨.idle, [Except.ok ⟨"{}", []⟩]⟩ "u" Option.none envSample 0
      (Except.ok ⟨"{}", []⟩)).2.2.2.1 rfl,
   (lifecycle_state_machine ⟨.idle, []⟩ "u" Option.none envSample 0
      (Except.ok ⟨"{}", []⟩)).2.2.2.2.2 rfl⟩

/-- C8: on a successful request the returned header mapping is exactly the
response's headers filtered to those whose lowercased name contains
"private-network" or "access-control", in iteration order (a sublist of the
original), and a "content-type" header is never among them. -/
theorem headers_filtered (url : String) (spaceArg : Option TargetAddressSpace)
    (env : FetchEnv) (r : HttpResponse)
    (hr : env url (resolveSpace spaceArg) = .response r)
    (d : Payload) (hs : List (String × String))
    (hres : makeLocalNetworkRequest url spaceArg env = .ok ⟨d, hs⟩) :
    hs = r.headers.filter keepHeader ∧
    (∀ kv, kv ∈ hs ↔ kv ∈ r.headers ∧ keepHeader kv = true) ∧
    List.Sublist hs r.headers ∧
    (∀ v, ("content-type", v) ∉ hs) := by
  have hs_eq : hs = r.headers.filter keepHeader := by
    simp only [makeLocalNetworkRequest] at hres
    rw [hr] at hres
    rcases Bool.eq_false_or_eq_true (respOk r.status) with hok | hok
    · simp [hok] at hres
      rcases hct : headerGet r.headers "content-type" with _ | ct
      · rw [hct] at hres
        simp at hres
        exact hres.2.symm
      · rw [hct] at hres
        rcases Bool.eq_false_or_eq_true (strContains ct "application/json") with hj | hj
        · simp [hj] at hres
          rcases hjb : r.jsonBody with e | b
          · rw [hjb] at hres
            cases hres
          · rw [hjb] at hres
            simp at hres
            exact hres.2.symm
        · simp [hj] at hres
          exact hres.2.symm
    · simp [hok] at hres
  refine ⟨hs_eq, ?_, ?_, ?_⟩
  · intro kv
    rw [hs_eq]
    exact List.mem_filter
  · rw [hs_eq]
    exact List.filter_sublist r.headers
  · intro v hv
    rw [hs_eq, List.mem_filter] at hv
    have hkh : keepHeader ("content-type", v) = false := rfl
    rw [hkh] at hv
    cases hv.2

/-- Witness for C8: the sample response's headers filter down to the two
LNA/CORS headers, dropping content-type. -/
theorem headers_filtered_witness :
    [("Access-Control-Allow-Origin", "*"),
     ("Private-Network-Access-Name", "test-server")] =
      respSample.headers.filter keepHeader :=
  (headers_filtered "http://192.168.1.100:8080" Option.none envSample respSample rfl
    "{}" [("Access-Control-Allow-Origin", "*"),
          ("Private-Network-Access-Name", "test-server")] rfl).1

/-- C9: the code has no stale-call guard: from idle, submitting, clearing
before the call resolves, then letting the call resolve leaves the
displayed state success — the cleared state is overwritten, violating the
claim. -/
theorem stale_resolve_overwrites_clear :
    (runEv ⟨.idle, []⟩
      [Event.submit "http://192.168.1.100:8080" Option.none envSample,
       Event.clear, Event.resolve 0]).displayed =
      .success "{}" [("Access-Control-Allow-Origin", "*"),
                     ("Private-Network-Access-Name", "test-server")] := rfl

/-- C10: an absent address-space argument defaults to 'local' in both
`sendRequest` and `makeLocalNetworkRequest`; calls with and without the
explicit 'local' argument are equal. -/
theorem default_address_space_local (url : String) (env : FetchEnv) :
    resolveSpace Option.none = TargetAddressSpace.«local» ∧
    makeLocalNetworkRequest url Option.none env =
      makeLocalNetworkRequest url (Option.some .«local») env ∧
    sendRequest url Option.none env = sendRequest url (Option.some .«local») env :=
  ⟨rfl, rfl, rfl⟩
